import Mathlib

/-!
Formal model of the checkpointed batch-verification engine in
dedupe/dedupe_cc_dist.py.

The on-disk working directory is modelled as a record of the files the
program manipulates: the three checkpoint slots (checkpoint.pkl,
checkpoint_temp.pkl, checkpoint_old.pkl, each an optional integer
content), the .transaction_lock marker (a boolean for mere existence),
the duplicates_<offset>.pkl output files (an association list from batch
start offset to the list of confirmed duplicate pairs), and a list of
unrelated files (all_pairs.pkl, minhash shards, ...) used to state frame
properties.

The commit protocol of process_batch (lines 59-86) and the startup
recovery of main (lines 140-150) are both modelled as explicit sequences
of file operations folded over the state, so that crashes between
operations and the order of operations (for example, that the lock is
removed last) are expressible.
-/

namespace DedupeCC

/-- A candidate pair of document indices, as in the pickled pairs file. -/
abbrev Pair := Nat × Nat

/-- The working directory as seen by dedupe_cc_dist.py. -/
structure DiskState where
  checkpoint : Option Nat
  checkpoint_temp : Option Nat
  checkpoint_old : Option Nat
  transaction_lock : Bool
  duplicates : List (Nat × List Pair)
  others : List (String × Nat)
deriving DecidableEq

/-- A working directory with none of this program's files present. -/
def emptyDisk : DiskState := ⟨none, none, none, false, [], []⟩

/-- Overwrite-or-create an entry in an association list, matching the
behaviour of pickle.dump to a file named by the key. -/
def setAssoc (l : List (Nat × List Pair)) (k : Nat) (v : List Pair) :
    List (Nat × List Pair) :=
  if l.any (fun p => p.1 == k) then
    l.map (fun p => if p.1 == k then (k, v) else p)
  else
    l ++ [(k, v)]

/-- The file operations performed by process_batch inside its
transactional window (dedupe_cc_dist.py lines 59-86). -/
inductive CommitOp where
  | touchLock
  | writeDups (start : Nat) (dups : List Pair)
  | writeTemp (v : Nat)
  | rotateCheckpoint
  | renameTempToCheckpoint
  | removeLock
deriving DecidableEq

/-- Effect of one commit file operation on the working directory.
rotateCheckpoint models the guarded rename of checkpoint.pkl to
checkpoint_old.pkl (lines 80-81); renameTempToCheckpoint models the
rename of checkpoint_temp.pkl to checkpoint.pkl (line 82). -/
def applyCommitOp (s : DiskState) : CommitOp → DiskState
  | CommitOp.touchLock => { s with transaction_lock := true }
  | CommitOp.writeDups start dups =>
      { s with duplicates := setAssoc s.duplicates start dups }
  | CommitOp.writeTemp v => { s with checkpoint_temp := some v }
  | CommitOp.rotateCheckpoint =>
      if s.checkpoint.isSome then
        { s with checkpoint_old := s.checkpoint, checkpoint := none }
      else s
  | CommitOp.renameTempToCheckpoint =>
      { s with checkpoint := s.checkpoint_temp, checkpoint_temp := none }
  | CommitOp.removeLock => { s with transaction_lock := false }

/-- The operation sequence of one process_batch commit: touch the lock,
dump the duplicates file for this start offset, dump start + len(batch)
to checkpoint_temp, rotate, rename temp into place, remove the lock. -/
def commitOps (start batchLen : Nat) (dups : List Pair) : List CommitOp :=
  [CommitOp.touchLock, CommitOp.writeDups start dups,
   CommitOp.writeTemp (start + batchLen), CommitOp.rotateCheckpoint,
   CommitOp.renameTempToCheckpoint, CommitOp.removeLock]

/-- Run a sequence of commit file operations. -/
def runOps (s : DiskState) (ops : List CommitOp) : DiskState :=
  ops.foldl applyCommitOp s

/-- The whole file-system effect of one successful process_batch call
for a batch of length batchLen starting at global offset start, whose
confirmed duplicates are dups (the filter of the pool results). -/
def process_batch_fs (s : DiskState) (start batchLen : Nat)
    (dups : List Pair) : DiskState :=
  runOps s (commitOps start batchLen dups)

/-- The working directory left behind when the process is killed after
the first k file operations of a commit. -/
def crashAfter (s : DiskState) (ops : List CommitOp) (k : Nat) : DiskState :=
  runOps s (ops.take k)

/-- The file operations performed by the startup recovery block of main
(dedupe_cc_dist.py lines 140-150). -/
inductive RecoverOp where
  | renameOldToCheckpoint
  | removeTemp
  | removeLock
deriving DecidableEq

/-- Effect of one recovery file operation. renameOldToCheckpoint models
os.rename(checkpoint_old_file, checkpoint_file), which overwrites any
existing checkpoint.pkl. -/
def applyRecoverOp (s : DiskState) : RecoverOp → DiskState
  | RecoverOp.renameOldToCheckpoint =>
      { s with checkpoint := s.checkpoint_old, checkpoint_old := none }
  | RecoverOp.removeTemp => { s with checkpoint_temp := none }
  | RecoverOp.removeLock => { s with transaction_lock := false }

/-- The operations the recovery block performs on a given state: nothing
unless the lock marker exists; otherwise, when checkpoint_temp exists,
restore checkpoint_old into checkpoint when present and delete
checkpoint_temp; in all cases remove the lock last (lines 140-150). -/
def recoverOps (s : DiskState) : List RecoverOp :=
  if s.transaction_lock then
    (if s.checkpoint_temp.isSome then
      (if s.checkpoint_old.isSome then [RecoverOp.renameOldToCheckpoint]
       else []) ++ [RecoverOp.removeTemp]
     else []) ++ [RecoverOp.removeLock]
  else []

/-- The startup crash-recovery procedure (lines 140-150) as a state
transformer. -/
def recoverIfCrashed (s : DiskState) : DiskState :=
  (recoverOps s).foldl applyRecoverOp s

/-- The checkpoint read of main, lines 152-157: if checkpoint.pkl
exists, the resume offset is the stored integer plus one; otherwise it
is the instance's range start. -/
def loadOffset (s : DiskState) (range_start : Nat) : Nat :=
  match s.checkpoint with
  | some v => v + 1
  | none => range_start

/-- pairs_per_instance of main, line 125: floor division. -/
def pairs_per_instance (pair_count instance_count : Nat) : Nat :=
  pair_count / instance_count

/-- offset_start of main, line 126. -/
def offset_start (pair_count instance_count inst : Nat) : Nat :=
  pairs_per_instance pair_count instance_count * inst

/-- next_offset of main, line 127; the loop breaks at this offset
(line 173-174) for every instance, the last one included. -/
def next_offset (pair_count instance_count inst : Nat) : Nat :=
  offset_start pair_count instance_count inst +
    pairs_per_instance pair_count instance_count

/-- The set of global pair offsets owned by one instance, as enforced by
the skip condition (line 165) and the break condition (line 173). -/
def instanceRange (pair_count instance_count inst : Nat) : Finset Nat :=
  Finset.Ico (offset_start pair_count instance_count inst)
    (next_offset pair_count instance_count inst)

/-- The sublist of pairs whose enumeration offset the driver loop lets
reach the loop body: offsets below the checkpoint offset are skipped
(line 165), offsets at or beyond next_offset break the loop (line 173),
and enumeration ends at the end of the pairs list. -/
def pairsInWindow (pairs : List Pair) (checkpoint_offset nxt : Nat) :
    List Pair :=
  ((pairs.enum.filter
      (fun p => decide (checkpoint_offset ≤ p.1 ∧ p.1 < nxt))).map
    Prod.snd)

/-- load_minhashes (lines 88-107). The shard directory is an association
list from shard offset to shard contents (minhash values are opaque,
modelled as Nat). The size-scan while loop (lines 94-97) fails with
FileNotFoundError at a missing expected shard; the concatenation loop
(lines 101-105) iterates over the minhashes_files list, which the source
initialises to the empty list on line 89 and never appends to. -/
def load_minhashes (shards : List (Nat × List Nat)) (document_count : Nat) :
    Except String (List Nat) :=
  let expectedOffsets :=
    (List.range ((document_count + 999) / 1000)).map (fun i => i * 1000)
  if expectedOffsets.all (fun o => (shards.lookup o).isSome) then
    let minhashes_files : List Nat := []
    Except.ok (minhashes_files.foldl
      (fun acc o => acc ++ ((shards.lookup o).getD [])) [])
  else
    Except.error "FileNotFoundError"

/-- The driver loop of main (lines 163-184), modelled with Python's
runtime errors. At the first offset that reaches the accumulation line
177, evaluation of the arguments raises IndexError when an index is out
of range of the minhash table, and otherwise the call itself raises
TypeError because list.append accepts exactly one argument. The batch
therefore never becomes non-empty, so the drain step (lines 183-184)
never calls process_batch. -/
def driver_go (minhashes : List Nat) (checkpoint_offset nxt : Nat) :
    Nat → List Pair → Except String Unit
  | _, [] => Except.ok ()
  | offset, pair :: rest =>
      if offset < checkpoint_offset then
        driver_go minhashes checkpoint_offset nxt (offset + 1) rest
      else if ¬ offset < nxt then
        Except.ok ()
      else if pair.1 < minhashes.length then
        if pair.2 < minhashes.length then
          Except.error "TypeError: append() takes exactly one argument (3 given)"
        else
          Except.error "IndexError: list index out of range"
      else
        Except.error "IndexError: list index out of range"

/-- The driver loop entered at enumeration offset 0. -/
def driver_loop (pairs : List Pair) (minhashes : List Nat)
    (checkpoint_offset nxt : Nat) : Except String Unit :=
  driver_go minhashes checkpoint_offset nxt 0 pairs

/-- The observable actions of main in order (lines 109-184), at the
granularity needed to state the early-exit behaviour: the pairs-file
existence check (lines 112-115) runs first and, when the file is
missing, main logs and calls sys.exit(0). -/
inductive MainAction where
  | checkPairsFile
  | exitProgram (code : Nat)
  | loadPairsFile
  | loadFingerprints
  | recoverCheckpointState
  | loadCheckpoint
  | runDriverLoop
deriving DecidableEq

/-- The action sequence of main as a function of whether all_pairs.pkl
exists (lines 112-115 and the rest of main). -/
def mainPrefixActions (pairsFilePresent : Bool) : List MainAction :=
  if pairsFilePresent then
    [MainAction.checkPairsFile, MainAction.loadPairsFile,
     MainAction.loadFingerprints, MainAction.recoverCheckpointState,
     MainAction.loadCheckpoint, MainAction.runDriverLoop]
  else
    [MainAction.checkPairsFile, MainAction.exitProgram 0]

/-- The exit codes occurring in an action sequence. -/
def exitCodes (acts : List MainAction) : List Nat :=
  acts.filterMap (fun a =>
    match a with
    | MainAction.exitProgram c => some c
    | _ => none)

/-- A concrete reachable crash state for the recovery analysis: two
batches of ten pairs commit (checkpoint 10, then checkpoint 20 with
checkpoint_old 10 left by the rotation), and the third commit is killed
right after writing 30 to checkpoint_temp, before the rotation. -/
def c2CrashState : DiskState :=
  crashAfter (process_batch_fs (process_batch_fs emptyDisk 0 10 []) 10 10 [])
    (commitOps 20 10 []) 3

end DedupeCC

namespace DedupeCC

/-- Union of consecutive equal blocks of size d covers an initial
segment. -/
theorem union_blocks (d : Nat) :
    ∀ n : Nat,
      (Finset.range n).biUnion (fun i => Finset.Ico (d * i) (d * i + d)) =
        Finset.range (d * n) := by
  intro n
  induction n with
  | zero => simp
  | succ k ih =>
      rw [Finset.range_succ, Finset.biUnion_insert, ih, Nat.mul_succ,
        Finset.range_eq_Ico, Finset.union_comm]
      exact Finset.Ico_union_Ico_eq_Ico (Nat.zero_le _) (Nat.le_add_right _ _)

/-- Claim C1 (code_bug evidence): resume is off by one. With two pairs
and a single instance, the uninterrupted run processes both pairs; a run
killed immediately after committing its first one-pair batch stores
checkpoint 1 (the first unprocessed offset), but on restart the code
resumes from 1 + 1 = 2, so the pair at offset 1 is processed by neither
run: the killed-and-resumed execution yields a strictly smaller set of
processed pairs, hence a different set of DuplicateRecords whenever the
skipped pair is a duplicate. -/
theorem claim_C1_resume_skips_pair :
    pairsInWindow [(0, 1), (2, 3)]
        (loadOffset emptyDisk (offset_start 2 1 0)) (next_offset 2 1 0) =
      [(0, 1), (2, 3)] ∧
    (process_batch_fs emptyDisk 0 1 [(0, 1)]).checkpoint = some 1 ∧
    loadOffset (recoverIfCrashed (process_batch_fs emptyDisk 0 1 [(0, 1)]))
        (offset_start 2 1 0) = 2 ∧
    pairsInWindow [(0, 1), (2, 3)] 0 1 ++
        pairsInWindow [(0, 1), (2, 3)]
          (loadOffset
            (recoverIfCrashed (process_batch_fs emptyDisk 0 1 [(0, 1)]))
            (offset_start 2 1 0))
          (next_offset 2 1 0) =
      [(0, 1)] ∧
    ([(0, 1)] : List Pair) ≠ [(0, 1), (2, 3)] :=
  ⟨rfl, rfl, rfl, rfl, by decide⟩

/-- Claim C2 counterexample: a previously-committed checkpoint can be
lost. In the reachable crash state c2CrashState the lock is set,
checkpoint holds the committed value 20, checkpoint_old holds the stale
value 10 (never cleaned up by the previous commit) and checkpoint_temp
holds 30; recovery renames the stale checkpoint_old over checkpoint, so
after recovery no slot holds the committed value 20. -/
theorem claim_C2_counterexample :
    c2CrashState.transaction_lock = true ∧
    c2CrashState.checkpoint = some 20 ∧
    c2CrashState.checkpoint_old = some 10 ∧
    c2CrashState.checkpoint_temp = some 30 ∧
    (recoverIfCrashed c2CrashState).checkpoint = some 10 ∧
    (recoverIfCrashed c2CrashState).checkpoint_old = none ∧
    (recoverIfCrashed c2CrashState).checkpoint_temp = none := by
  decide

/-- Claim C2 (amended): for every state with the lock marker set,
recovery (a) leaves no checkpoint_temp, restoring checkpoint_old into
checkpoint exactly when both checkpoint_temp and checkpoint_old exist
and leaving checkpoint untouched when checkpoint_old is absent; (b)
discards nothing beyond checkpoint_temp when checkpoint_temp is absent;
(c) removes the lock, and the lock removal is the last file operation;
and it never modifies duplicate-output files or unrelated files. The
original claim's final guarantee fails: the restored value may be an
older committed checkpoint that overwrites a newer one. -/
theorem claim_C2_recovery_characterized (s : DiskState)
    (h : s.transaction_lock = true) :
    (recoverIfCrashed s).checkpoint_temp = none ∧
    (s.checkpoint_temp.isSome = true → s.checkpoint_old.isSome = true →
      (recoverIfCrashed s).checkpoint = s.checkpoint_old) ∧
    (s.checkpoint_temp.isSome = true → s.checkpoint_old = none →
      (recoverIfCrashed s).checkpoint = s.checkpoint) ∧
    (s.checkpoint_temp = none →
      (recoverIfCrashed s).checkpoint = s.checkpoint ∧
      (recoverIfCrashed s).checkpoint_old = s.checkpoint_old) ∧
    (recoverIfCrashed s).transaction_lock = false ∧
    (recoverOps s).getLast? = some RecoverOp.removeLock ∧
    (recoverIfCrashed s).duplicates = s.duplicates ∧
    (recoverIfCrashed s).others = s.others := by
  rcases s with ⟨cp, tmp, old, lock, dups, oth⟩
  cases lock with
  | false => exact Bool.noConfusion h
  | true =>
      cases tmp <;> cases old <;>
        simp [recoverIfCrashed, recoverOps, applyRecoverOp]

/-- Witness for claim C2's amended theorem at a concrete locked state. -/
theorem claim_C2_recovery_characterized_witness :
    (⟨some 20, some 30, some 10, true, [], []⟩ : DiskState).transaction_lock
        = true ∧
    (recoverIfCrashed ⟨some 20, some 30, some 10, true, [], []⟩).checkpoint_temp
        = none :=
  ⟨rfl,
   (claim_C2_recovery_characterized
      ⟨some 20, some 30, some 10, true, [], []⟩ rfl).1⟩

/-- Claim C3: the startup recovery procedure is idempotent; running it
twice on any working-directory state leaves the same state as running it
once, because the first run always removes the lock marker and the
procedure does nothing when the lock marker is absent. -/
theorem claim_C3_recover_idempotent (s : DiskState) :
    recoverIfCrashed (recoverIfCrashed s) = recoverIfCrashed s := by
  rcases s with ⟨cp, tmp, old, lock, dups, oth⟩
  cases lock <;> cases tmp <;> cases old <;> rfl

/-- Claim C4: after recovery has run, the resume offset is the stored
checkpoint integer plus one when checkpoint.pkl exists, and the
instance's range start pairs_per_instance * instanceIndex otherwise
(main, lines 152-157). -/
theorem claim_C4_load (s : DiskState) (pc ic inst : Nat) :
    (∀ v, (recoverIfCrashed s).checkpoint = some v →
        loadOffset (recoverIfCrashed s) (offset_start pc ic inst) = v + 1) ∧
    ((recoverIfCrashed s).checkpoint = none →
        loadOffset (recoverIfCrashed s) (offset_start pc ic inst) =
          pairs_per_instance pc ic * inst) := by
  constructor
  · intro v hv
    simp [loadOffset, hv]
  · intro hv
    simp [loadOffset, hv, offset_start]

/-- Witness for claim C4 at concrete states with and without a
checkpoint file. -/
theorem claim_C4_load_witness :
    loadOffset (recoverIfCrashed ⟨some 41, none, none, false, [], []⟩)
        (offset_start 100 2 1) = 42 ∧
    loadOffset (recoverIfCrashed ⟨none, none, none, false, [], []⟩)
        (offset_start 100 2 1) = pairs_per_instance 100 2 * 1 :=
  ⟨(claim_C4_load ⟨some 41, none, none, false, [], []⟩ 100 2 1).1 41 rfl,
   (claim_C4_load ⟨none, none, none, false, [], []⟩ 100 2 1).2 rfl⟩

/-- Claim C5 counterexample: with 5 pairs and 2 instances the union of
the instance ranges is the interval up to 4, not up to 5; the pair at
offset 4 is assigned to no instance, so the final instance does not
absorb the remainder. -/
theorem claim_C5_counterexample :
    (Finset.range 2).biUnion (fun i => instanceRange 5 2 i) ≠
      Finset.range 5 := by
  decide

/-- Claim C5 (amended): the instance ranges are contiguous,
non-overlapping and all of the floor-division size, and their union is
exactly the initial segment of length pairs_per_instance * instanceCount
— not of length totalPairs: the remainder totalPairs mod instanceCount
is assigned to no instance, the last included. -/
theorem claim_C5_partition (pc ic : Nat) (h : 1 ≤ ic) :
    (∀ i, i < ic → (instanceRange pc ic i).card = pairs_per_instance pc ic) ∧
    (∀ i j, i < ic → j < ic → i ≠ j →
      Disjoint (instanceRange pc ic i) (instanceRange pc ic j)) ∧
    (∀ i, i + 1 < ic →
      next_offset pc ic i = offset_start pc ic (i + 1)) ∧
    (Finset.range ic).biUnion (fun i => instanceRange pc ic i) =
      Finset.range (pairs_per_instance pc ic * ic) := by
  refine ⟨?_, ?_, ?_, ?_⟩
  · intro i _
    simp only [instanceRange, offset_start, next_offset, Nat.card_Ico]
    omega
  · intro i j _ _ hij
    rw [Finset.disjoint_left]
    intro x hx1 hx2
    simp only [instanceRange, offset_start, next_offset,
      Finset.mem_Ico] at hx1 hx2
    rcases Nat.lt_or_ge i j with hlt | hge
    · have hm : pairs_per_instance pc ic * (i + 1) ≤
          pairs_per_instance pc ic * j :=
        Nat.mul_le_mul_left _ hlt
      have hs : pairs_per_instance pc ic * (i + 1) =
          pairs_per_instance pc ic * i + pairs_per_instance pc ic := by
        ring
      omega
    · have hgt : j < i := Nat.lt_of_le_of_ne hge (Ne.symm hij)
      have hm : pairs_per_instance pc ic * (j + 1) ≤
          pairs_per_instance pc ic * i :=
        Nat.mul_le_mul_left _ hgt
      have hs : pairs_per_instance pc ic * (j + 1) =
          pairs_per_instance pc ic * j + pairs_per_instance pc ic := by
        ring
      omega
  · intro i _
    simp [next_offset, offset_start, Nat.mul_succ]
  · simpa [instanceRange, offset_start, next_offset] using
      union_blocks (pairs_per_instance pc ic) ic

/-- Witness for claim C5's amended theorem at totalPairs 5 and
instanceCount 2. -/
theorem claim_C5_partition_witness :
    1 ≤ 2 ∧
    (Finset.range 2).biUnion (fun i => instanceRange 5 2 i) =
      Finset.range (pairs_per_instance 5 2 * 2) :=
  ⟨by decide, (claim_C5_partition 5 2 (by decide)).2.2.2⟩

/-- Claim C6 (code_bug evidence): with one document and its shard file
present (minhashes_0 containing one fingerprint), the loader succeeds
but returns the empty table, because minhashes_files is initialised
empty and never populated; a missing shard still raises, so the loader
returns either an error or an empty table, never the concatenation the
claim describes. -/
theorem claim_C6_loader_empty :
    load_minhashes [(0, [7])] 1 = Except.ok [] ∧
    load_minhashes [] 1 = Except.error "FileNotFoundError" ∧
    ¬ ([] : List Nat).length = 1 :=
  ⟨rfl, rfl, by decide⟩

/-- Claim C7 (code_bug evidence): the driver loop crashes at the first
pair that reaches the accumulation step. With one candidate pair in the
owned window, it raises TypeError when both fingerprint indices are in
range of the table (list.append is called with three arguments) and
IndexError when the table is empty, as it always is given the loader's
behaviour; when the window contains no pair the loop terminates without
processing anything. -/
theorem claim_C7_driver_crashes :
    driver_loop [(0, 1)] [5, 6] 0 1 =
      Except.error "TypeError: append() takes exactly one argument (3 given)" ∧
    driver_loop [(0, 1)] [] 0 1 =
      Except.error "IndexError: list index out of range" ∧
    driver_loop [(0, 1)] [5, 6] 1 1 = Except.ok () :=
  ⟨rfl, rfl, rfl⟩

/-- Claim C8 counterexample: when the candidate-pair file is missing,
the only exit performed by main carries status 0, not a non-zero
status (sys.exit(0) on line 115). -/
theorem claim_C8_counterexample :
    mainPrefixActions false =
      [MainAction.checkPairsFile, MainAction.exitProgram 0] ∧
    (exitCodes (mainPrefixActions false)).all (fun c => decide (c = 0)) =
      true :=
  ⟨rfl, rfl⟩

/-- Claim C8 (amended): when the candidate-pair file is absent main
terminates early with exit status zero, before loading fingerprints and
before touching any checkpoint state. -/
theorem claim_C8_early_exit_zero :
    exitCodes (mainPrefixActions false) = [0] ∧
    MainAction.exitProgram 0 ∈ mainPrefixActions false ∧
    MainAction.loadFingerprints ∉ mainPrefixActions false ∧
    MainAction.recoverCheckpointState ∉ mainPrefixActions false ∧
    MainAction.loadCheckpoint ∉ mainPrefixActions false := by
  decide

/-- Claim C9 counterexample: after two successful commits (the second
rotation moves the first checkpoint into checkpoint_old), the commit
protocol has fully completed — the lock marker is gone — yet
checkpoint_old is still present on disk, holding the previous
checkpoint value 10. -/
theorem claim_C9_counterexample :
    (process_batch_fs (process_batch_fs emptyDisk 0 10 []) 10 10
        []).transaction_lock = false ∧
    (process_batch_fs (process_batch_fs emptyDisk 0 10 []) 10 10
        []).checkpoint_old = some 10 := by
  decide

/-- Claim C9 (amended): the commit protocol never deletes
checkpoint_old. After a successful commit the lock is removed and the
new checkpoint is in place, but checkpoint_old holds the previous
checkpoint whenever one existed before the commit (and is otherwise
left as it was); it persists until overwritten by a later rotation or
consumed by crash recovery. -/
theorem claim_C9_old_persists (s : DiskState) (start batchLen : Nat)
    (dups : List Pair) :
    (process_batch_fs s start batchLen dups).transaction_lock = false ∧
    (process_batch_fs s start batchLen dups).checkpoint =
      some (start + batchLen) ∧
    (process_batch_fs s start batchLen dups).checkpoint_old =
      (if s.checkpoint.isSome = true then s.checkpoint
       else s.checkpoint_old) := by
  rcases s with ⟨cp, tmp, old, lock, du, oth⟩
  cases cp <;>
    simp [process_batch_fs, runOps, commitOps, applyCommitOp, setAssoc]

/-- Claim C10: when the lock and checkpoint_temp exist but
checkpoint_old does not, recovery performs exactly the deletion of
checkpoint_temp followed by the removal of the lock marker; the
checkpoint file, the duplicate-output files and every unrelated file
are left unchanged. -/
theorem claim_C10_frame (s : DiskState) (h1 : s.transaction_lock = true)
    (h2 : s.checkpoint_temp.isSome = true) (h3 : s.checkpoint_old = none) :
    recoverIfCrashed s =
      { s with checkpoint_temp := none, transaction_lock := false } ∧
    recoverOps s = [RecoverOp.removeTemp, RecoverOp.removeLock] := by
  rcases s with ⟨cp, tmp, old, lock, dups, oth⟩
  cases lock with
  | false => exact Bool.noConfusion h1
  | true =>
      cases tmp with
      | none => exact Bool.noConfusion h2
      | some a =>
          cases old with
          | some b => exact Option.noConfusion h3
          | none => exact ⟨rfl, rfl⟩

/-- Witness for claim C10 at a concrete state with a checkpoint, a
duplicates file and an unrelated file present. -/
theorem claim_C10_frame_witness :
    recoverIfCrashed
        ⟨some 5, some 7, none, true, [(0, [(1, 2)])], [("all_pairs", 3)]⟩ =
      ⟨some 5, none, none, false, [(0, [(1, 2)])], [("all_pairs", 3)]⟩ :=
  (claim_C10_frame
    ⟨some 5, some 7, none, true, [(0, [(1, 2)])], [("all_pairs", 3)]⟩
    rfl rfl rfl).1

end DedupeCC
